import Mathlib

/-!
Verification of the Privylease Cloudflare Worker (GitHub Release Proxy).

The definitions below are a shallow embedding of the worker source
(`cloudflare-worker.js`, refactored variant): the rate limiter backed by a
KV store (`checkRateLimit`, `updateRateLimit`, `resetRateLimit`), the
constant-time credential comparator (`timingSafeEquals`), and the request
handler (`fetch`). JS strings are modelled as Lean `String` (one `Char`
per code unit, `charCodeAt` ↦ `Char.toNat`), timestamps as `Nat`
milliseconds, and the KV binding as an optional store value carrying the
key-value map together with flags saying whether get/put/delete raise.
JSON response bodies are modelled structurally (one constructor per
object shape the worker stringifies).
-/

namespace Privylease

/-- `CONSTANTS.MAX_FAILED_ATTEMPTS` in the worker source. -/
def MAX_FAILED_ATTEMPTS : Nat := 5

/-- `CONSTANTS.BLOCK_DURATION_MINUTES` in the worker source. -/
def BLOCK_DURATION_MINUTES : Nat := 15

/-- `CONSTANTS.RATE_LIMIT_TTL_SECONDS` in the worker source (15 minutes). -/
def RATE_LIMIT_TTL_SECONDS : Nat := 900

/-- Block duration in milliseconds, as computed in `updateRateLimit`:
`BLOCK_DURATION_MINUTES * 60 * 1000`. -/
def blockDurationMs : Nat := BLOCK_DURATION_MINUTES * 60 * 1000

/-- A rate limit record as stored in KV: `JSON.stringify({attempts, resetAt})`. -/
structure RateLimitRecord where
  attempts : Nat
  resetAt : Nat
  deriving Repr, DecidableEq

/-- The KV namespace binding.  `data` is the key-value map; the three flags
model whether `get` / `put` / `delete` throw (a thrown error is caught by the
worker's `try/catch` blocks). -/
structure KVStore where
  data : String → Option RateLimitRecord
  getFails : Bool
  putFails : Bool
  deleteFails : Bool

/-- The worker environment: the optional KV binding plus the configured
secrets (`VIEWER_PASSWORD`, `REPO_NAME`, `GITHUB_TOKEN`). -/
structure Env where
  kv : Option KVStore
  VIEWER_PASSWORD : String
  REPO_NAME : String
  GITHUB_TOKEN : String

/-- An incoming request: method, URL pathname, and the headers the worker
reads.  Each header is `none` when absent (JS `headers.get` returns `null`). -/
structure Request where
  method : String
  pathname : String
  xPassword : Option String
  cfConnectingIP : Option String
  xForwardedFor : Option String
  xRealIP : Option String

/-- JS `a || b` on a nullable string: falls through on `null` and on the
empty string (both falsy). -/
def jsOrString (a : Option String) (b : String) : String :=
  match a with
  | none => b
  | some s => if s = "" then b else s

/-- `getClientIP`: first available of `CF-Connecting-IP`, `X-Forwarded-For`,
`X-Real-IP`, falling back to `'unknown'`. -/
def getClientIP (request : Request) : String :=
  jsOrString request.cfConnectingIP
    (jsOrString request.xForwardedFor
      (jsOrString request.xRealIP "unknown"))

/-- The KV key `` `ratelimit:${clientIP}` ``. -/
def rateLimitKey (clientIP : String) : String := "ratelimit:" ++ clientIP

/-- Result of `checkRateLimit`: the `{isBlocked, retryAfter?}` object. -/
structure RateLimitCheck where
  isBlocked : Bool
  retryAfter : Option Nat
  deriving Repr, DecidableEq

/-- `Math.ceil(d / 1000)` for a nonnegative integer `d`. -/
def ceilDiv1000 (d : Nat) : Nat := (d + 999) / 1000

/-- `checkRateLimit(env, clientIP)`: no KV binding ⇒ not blocked; KV `get`
error ⇒ not blocked (caught); no record ⇒ not blocked; record with
`now < resetAt` ⇒ blocked with `retryAfter = Math.ceil((resetAt - now)/1000)`;
otherwise not blocked.  It performs no writes. -/
def checkRateLimit (env : Env) (clientIP : String) (now : Nat) : RateLimitCheck :=
  match env.kv with
  | none => ⟨false, none⟩
  | some kv =>
    if kv.getFails then ⟨false, none⟩
    else
      match kv.data (rateLimitKey clientIP) with
      | none => ⟨false, none⟩
      | some rec =>
        if now < rec.resetAt then
          ⟨true, some (ceilDiv1000 (rec.resetAt - now))⟩
        else
          ⟨false, none⟩

/-- Overwrite one key of a KV map. -/
def KVStore.put (kv : KVStore) (key : String) (rec : RateLimitRecord) : KVStore :=
  { kv with data := fun k => if k = key then some rec else kv.data k }

/-- Remove one key of a KV map. -/
def KVStore.del (kv : KVStore) (key : String) : KVStore :=
  { kv with data := fun k => if k = key then none else kv.data k }

/-- `updateRateLimit(env, clientIP, currentAttempts)`: no-op without KV;
computes `newAttempts = currentAttempts + 1` and writes
`{attempts: newAttempts, resetAt: now + BLOCK_DURATION}` — the source has an
`if newAttempts >= MAX_FAILED_ATTEMPTS` branch but both branches write the
same record.  A `put` error is caught and leaves the store unchanged. -/
def updateRateLimit (env : Env) (clientIP : String) (now : Nat)
    (currentAttempts : Nat) : Env :=
  match env.kv with
  | none => env
  | some kv =>
    let newAttempts := currentAttempts + 1
    if kv.putFails then env
    else if MAX_FAILED_ATTEMPTS ≤ newAttempts then
      let resetAt := now + blockDurationMs
      { env with kv := some (kv.put (rateLimitKey clientIP) ⟨newAttempts, resetAt⟩) }
    else
      { env with kv := some (kv.put (rateLimitKey clientIP)
          ⟨newAttempts, now + blockDurationMs⟩) }

/-- `resetRateLimit(env, clientIP)`: deletes the identity's record; no-op
without KV; a `delete` error is caught and leaves the store unchanged. -/
def resetRateLimit (env : Env) (clientIP : String) : Env :=
  match env.kv with
  | none => env
  | some kv =>
    if kv.deleteFails then env
    else { env with kv := some (kv.del (rateLimitKey clientIP)) }

/-- `timingSafeEquals(a, b)`: false on unequal lengths; otherwise ORs the
XOR of every character pair (`result |= a.charCodeAt(i) ^ b.charCodeAt(i)`)
and returns whether the accumulated result is zero. -/
def timingSafeEquals (a b : String) : Bool :=
  if a.length ≠ b.length then false
  else
    let result :=
      (List.zipWith (fun x y => Nat.xor x.toNat y.toNat) a.data b.data).foldl
        Nat.lor 0
    result = 0

/-- `timingSafeEquals` instrumented with the number of loop iterations
executed (the comparison loop body count); the Boolean component is the
function's result. -/
def timingSafeEqualsInstr (a b : String) : Bool × Nat :=
  if a.length ≠ b.length then (false, 0)
  else
    let xs := List.zipWith (fun x y => Nat.xor x.toNat y.toNat) a.data b.data
    (decide (xs.foldl Nat.lor 0 = 0), xs.length)

/-- Response bodies, one constructor per JSON object shape the worker
builds with `JSON.stringify`. -/
inductive Body where
  /-- `null` body of the OPTIONS preflight response. -/
  | empty : Body
  /-- `{error: msg}`. -/
  | errorMsg (msg : String) : Body
  /-- `{error: msg, retryAfter}`. -/
  | errorRetry (msg : String) (retryAfter : Nat) : Body
  /-- `{downloadUrl}` (the `Location` header value, `null` when absent). -/
  | downloadUrl (url : Option String) : Body
  /-- pass-through of the upstream releases JSON payload. -/
  | releases (payload : String) : Body
  /-- the root API-info object. -/
  | apiInfo : Body
  deriving Repr, DecidableEq

/-- An outgoing response: status, body, headers. -/
structure Response where
  status : Nat
  body : Body
  headers : List (String × String)
  deriving Repr, DecidableEq

/-- `createJSONResponse(data, {status, headers})`: default status 200,
content-type and CORS headers plus the extra headers. -/
def createJSONResponse (body : Body) (status : Nat)
    (headers : List (String × String)) : Response :=
  ⟨status,
   body,
   [("Content-Type", "application/json"),
    ("Access-Control-Allow-Origin", "*")] ++ headers⟩

/-- The CORS preflight headers of the OPTIONS response. -/
def corsHeaders : List (String × String) :=
  [("Access-Control-Allow-Origin", "*"),
   ("Access-Control-Allow-Methods", "GET, POST, OPTIONS"),
   ("Access-Control-Allow-Headers", "Content-Type, X-Password"),
   ("Access-Control-Max-Age", "86400")]

/-- An upstream response to the asset endpoint, fetched with
`redirect: 'manual'`: its status and optional `Location` header. -/
structure UpstreamResponse where
  status : Nat
  location : Option String

/-- The upstream GitHub API, abstracted: the releases payload and, per
asset id, the asset endpoint's response. -/
structure Upstream where
  releasesBody : String
  asset : String → UpstreamResponse

/-- JS `String.prototype.startsWith`: the first `p.length` code units of
`s` equal `p`. -/
def jsStartsWith (s p : String) : Bool := s.data.take p.data.length == p.data

/-- The routing section of the handler, reached only after authentication
succeeded: `/releases`, `/download-url/:assetId`, or the root info. -/
def routeRequest (request : Request) (up : Upstream) : Response :=
  if request.pathname = "/releases" then
    createJSONResponse (Body.releases up.releasesBody) 200
      [("Cache-Control", "public, max-age=60")]
  else if jsStartsWith request.pathname "/download-url/" then
    let assetId := (request.pathname.splitOn "/download-url/").getD 1 ""
    let assetResponse := up.asset assetId
    if assetResponse.status = 302 then
      createJSONResponse (Body.downloadUrl assetResponse.location) 200
        [("Cache-Control", "no-cache")]
    else
      createJSONResponse (Body.errorMsg "Asset not found") 404 []
  else
    createJSONResponse Body.apiInfo 200 []

/-- The `attempts` value the handler reads back before `updateRateLimit`
on a failed authentication: 0 without KV, on a `get` error, or with no
record; otherwise the stored record's `attempts`. -/
def readCurrentAttempts (env : Env) (clientIP : String) : Nat :=
  match env.kv with
  | none => 0
  | some kv =>
    if kv.getFails then 0
    else
      match kv.data (rateLimitKey clientIP) with
      | none => 0
      | some rec => rec.attempts

/-- The worker's `fetch(request, env)` handler.  `now` is `Date.now()` and
`up` the upstream GitHub API.  Returns the response together with the
environment as left after any KV writes. -/
def fetch (request : Request) (env : Env) (now : Nat) (up : Upstream) :
    Response × Env :=
  if request.method = "OPTIONS" then
    (⟨200, Body.empty, corsHeaders⟩, env)
  else
    let password := request.xPassword
    let clientIP := getClientIP request
    let rateLimitCheck := checkRateLimit env clientIP now
    if rateLimitCheck.isBlocked then
      (createJSONResponse
        (Body.errorRetry "Too many failed attempts. Try again later."
          (rateLimitCheck.retryAfter.getD 0))
        429
        [("Retry-After", toString (rateLimitCheck.retryAfter.getD 0))],
       env)
    else
      let isValidPassword := timingSafeEquals (password.getD "") env.VIEWER_PASSWORD
      if ¬isValidPassword then
        let currentAttempts := readCurrentAttempts env clientIP
        let env2 := updateRateLimit env clientIP now currentAttempts
        (createJSONResponse (Body.errorMsg "Invalid password") 401 [], env2)
      else
        let env2 := resetRateLimit env clientIP
        (routeRequest request up, env2)

end Privylease

namespace Privylease

/-! ### Bitwise helper lemmas for the comparator -/

theorem lor_eq_zero_iff (a b : Nat) : a ||| b = 0 ↔ a = 0 ∧ b = 0 := by
  constructor
  · intro h
    have key : ∀ i, Nat.testBit a i = false ∧ Nat.testBit b i = false := by
      intro i
      have hbit := congrArg (fun n => Nat.testBit n i) h
      simpa only [Nat.testBit_lor, Nat.zero_testBit, Bool.or_eq_false_iff] using hbit
    constructor
    · exact Nat.eq_of_testBit_eq fun i => by simp [(key i).1]
    · exact Nat.eq_of_testBit_eq fun i => by simp [(key i).2]
  · rintro ⟨rfl, rfl⟩; rfl

theorem foldl_lor_eq_zero (xs : List Nat) (acc : Nat) :
    xs.foldl Nat.lor acc = 0 ↔ acc = 0 ∧ ∀ x ∈ xs, x = 0 := by
  induction xs generalizing acc with
  | nil => simp
  | cons x xs ih =>
    simp only [List.foldl_cons]
    rw [ih, show Nat.lor acc x = acc ||| x from rfl, lor_eq_zero_iff]
    constructor
    · rintro ⟨⟨h1, h2⟩, h3⟩
      refine ⟨h1, fun y hy => ?_⟩
      rcases List.mem_cons.mp hy with rfl | hy
      · exact h2
      · exact h3 y hy
    · rintro ⟨h1, h2⟩
      exact ⟨⟨h1, h2 x (List.mem_cons_self x xs)⟩,
        fun y hy => h2 y (List.mem_cons_of_mem x hy)⟩

theorem zipWith_xor_all_zero (l1 l2 : List Char) (hlen : l1.length = l2.length) :
    (∀ x ∈ List.zipWith (fun x y => Nat.xor x.toNat y.toNat) l1 l2, x = 0) ↔
      l1 = l2 := by
  induction l1 generalizing l2 with
  | nil => cases l2 with
    | nil => simp
    | cons b l2 => simp at hlen
  | cons a l1 ih =>
    cases l2 with
    | nil => simp at hlen
    | cons b l2 =>
      simp only [List.length_cons, Nat.add_right_cancel_iff] at hlen
      simp only [List.zipWith_cons_cons, List.mem_cons, List.cons.injEq]
      constructor
      · intro h
        have ha : Nat.xor a.toNat b.toNat = 0 := h _ (Or.inl rfl)
        have hab : a = b :=
          Char.eq_of_val_eq (UInt32.toNat.inj (Nat.xor_eq_zero.mp ha))
        exact ⟨hab, (ih l2 hlen).mp fun x hx => h x (Or.inr hx)⟩
      · rintro ⟨rfl, rfl⟩
        intro x hx
        rcases hx with rfl | hx
        · exact Nat.xor_self _
        · exact ((ih l1 rfl).mpr rfl) x hx

theorem timingSafeEquals_correct (a b : String) :
    timingSafeEquals a b = true ↔ a = b := by
  unfold timingSafeEquals
  by_cases h : a.length = b.length
  · rw [if_neg (by simp [h])]
    simp only [decide_eq_true_eq]
    rw [foldl_lor_eq_zero, zipWith_xor_all_zero a.data b.data h]
    constructor
    · rintro ⟨-, hdata⟩
      cases a; cases b; simp_all
    · rintro rfl; exact ⟨rfl, rfl⟩
  · rw [if_pos h]
    constructor
    · intro hfalse; cases hfalse
    · rintro rfl; exact absurd rfl h

/-- C4: the credential comparator returns true exactly on equal strings:
unequal lengths are rejected outright, and for equal lengths the
accumulated bitwise OR of the per-character XORs is zero exactly when
every character pair matches. -/
theorem timingSafeEquals_iff_eq (a b : String) :
    timingSafeEquals a b = true ↔ a = b :=
  timingSafeEquals_correct a b

theorem timingSafeEqualsInstr_length (a b : String) (h : a.length = b.length) :
    (timingSafeEqualsInstr a b).2 = a.length := by
  unfold timingSafeEqualsInstr
  rw [if_neg (by simp [h])]
  show (List.zipWith _ a.data b.data).length = a.data.length
  rw [List.length_zipWith]
  have h2 : a.data.length = b.data.length := h
  omega

/-- C5: the instrumented comparator runs the same number of comparison-loop
iterations on any two pairs of equal-length inputs of a common length,
independent of where (or whether) the strings differ; its Boolean component
coincides with `timingSafeEquals`. -/
theorem timingSafeEquals_constant_work (a b c d : String)
    (hab : a.length = b.length) (hcd : c.length = d.length)
    (hac : a.length = c.length) :
    (timingSafeEqualsInstr a b).2 = (timingSafeEqualsInstr c d).2 ∧
    (timingSafeEqualsInstr a b).1 = timingSafeEquals a b ∧
    (timingSafeEqualsInstr c d).1 = timingSafeEquals c d := by
  refine ⟨?_, ?_, ?_⟩
  · rw [timingSafeEqualsInstr_length a b hab, timingSafeEqualsInstr_length c d hcd, hac]
  · unfold timingSafeEqualsInstr timingSafeEquals
    split <;> rfl
  · unfold timingSafeEqualsInstr timingSafeEquals
    split <;> rfl

/-- Witness for C5 at concrete inputs: `"ab"/"xb"` and `"qq"/"qz"` differ at
different positions yet the comparator does identical work. -/
theorem timingSafeEquals_constant_work_witness :
    ("ab".length = "xb".length ∧ "qq".length = "qz".length ∧
      "ab".length = "qq".length) ∧
    ((timingSafeEqualsInstr "ab" "xb").2 = (timingSafeEqualsInstr "qq" "qz").2 ∧
     (timingSafeEqualsInstr "ab" "xb").1 = timingSafeEquals "ab" "xb" ∧
     (timingSafeEqualsInstr "qq" "qz").1 = timingSafeEquals "qq" "qz") :=
  ⟨by decide,
   timingSafeEquals_constant_work "ab" "xb" "qq" "qz" (by decide) (by decide)
     (by decide)⟩

end Privylease

namespace Privylease

/-! ### Characterization of the handler's four control paths -/

theorem routeRequest_status (request : Request) (up : Upstream) :
    (routeRequest request up).status = 200 ∨ (routeRequest request up).status = 404 := by
  unfold routeRequest createJSONResponse
  by_cases h1 : request.pathname = "/releases"
  · rw [if_pos h1]; left; rfl
  · rw [if_neg h1]
    by_cases h2 : jsStartsWith request.pathname "/download-url/"
    · rw [if_pos h2]
      by_cases h3 :
          (up.asset ((request.pathname.splitOn "/download-url/").getD 1 "")).status = 302
      · rw [if_pos h3]; left; rfl
      · rw [if_neg h3]; right; rfl
    · rw [if_neg h2]; left; rfl

theorem fetch_options (request : Request) (env : Env) (now : Nat) (up : Upstream)
    (hm : request.method = "OPTIONS") :
    fetch request env now up = (⟨200, Body.empty, corsHeaders⟩, env) := by
  unfold fetch; rw [if_pos hm]

theorem fetch_blocked (request : Request) (env : Env) (now : Nat) (up : Upstream)
    (n : Nat) (hm : request.method ≠ "OPTIONS")
    (hc : checkRateLimit env (getClientIP request) now = ⟨true, some n⟩) :
    fetch request env now up =
      (createJSONResponse
        (Body.errorRetry "Too many failed attempts. Try again later." n) 429
        [("Retry-After", toString n)], env) := by
  unfold fetch
  rw [if_neg hm]
  simp [hc]

theorem fetch_unblocked_invalid (request : Request) (env : Env) (now : Nat)
    (up : Upstream) (hm : request.method ≠ "OPTIONS")
    (hc : (checkRateLimit env (getClientIP request) now).isBlocked = false)
    (hv : timingSafeEquals (request.xPassword.getD "") env.VIEWER_PASSWORD = false) :
    fetch request env now up =
      (createJSONResponse (Body.errorMsg "Invalid password") 401 [],
       updateRateLimit env (getClientIP request) now
         (readCurrentAttempts env (getClientIP request))) := by
  unfold fetch
  rw [if_neg hm]
  simp [hc, hv]

theorem fetch_unblocked_valid (request : Request) (env : Env) (now : Nat)
    (up : Upstream) (hm : request.method ≠ "OPTIONS")
    (hc : (checkRateLimit env (getClientIP request) now).isBlocked = false)
    (hv : timingSafeEquals (request.xPassword.getD "") env.VIEWER_PASSWORD = true) :
    fetch request env now up =
      (routeRequest request up, resetRateLimit env (getClientIP request)) := by
  unfold fetch
  rw [if_neg hm]
  simp [hc, hv]

end Privylease

namespace Privylease

/-- `ceilDiv1000` agrees with the real ceiling `Math.ceil(d / 1000)`. -/
theorem ceilDiv1000_eq_ceil (d : Nat) : ceilDiv1000 d = ⌈(d : ℚ) / 1000⌉₊ := by
  unfold ceilDiv1000
  rcases Nat.eq_zero_or_pos d with rfl | hd
  · norm_num
  · have hq1 : 1 ≤ (d + 999) / 1000 := by omega
    have hlow : ((d + 999) / 1000 - 1) * 1000 < d := by omega
    have hhigh : d ≤ (d + 999) / 1000 * 1000 := by omega
    rw [eq_comm, Nat.ceil_eq_iff (by omega)]
    constructor
    · rw [lt_div_iff₀ (by norm_num)]
      exact_mod_cast hlow
    · rw [div_le_iff₀ (by norm_num)]
      exact_mod_cast hhigh

/-- C2: `checkRateLimit` with a working store read: absent record ⇒ not
blocked; record with `now < resetAt` ⇒ blocked with
`retryAfterSeconds = ceil((resetAt - now)/1000)`; stale record
(`now ≥ resetAt`) ⇒ not blocked.  The function performs no store write at
all (it is a pure read returning only the check result), so the stale
record is in particular not deleted here. -/
theorem checkRateLimit_cases (env : Env) (kv : KVStore) (clientIP : String)
    (now : Nat) (hkv : env.kv = some kv) (hget : kv.getFails = false) :
    (kv.data (rateLimitKey clientIP) = none →
      checkRateLimit env clientIP now = ⟨false, none⟩) ∧
    (∀ rec, kv.data (rateLimitKey clientIP) = some rec →
      (now < rec.resetAt →
        checkRateLimit env clientIP now =
          ⟨true, some (ceilDiv1000 (rec.resetAt - now))⟩ ∧
        ceilDiv1000 (rec.resetAt - now) =
          ⌈((rec.resetAt - now : ℕ) : ℚ) / 1000⌉₊) ∧
      (rec.resetAt ≤ now →
        checkRateLimit env clientIP now = ⟨false, none⟩)) := by
  unfold checkRateLimit
  rw [hkv]
  simp only [hget, Bool.false_eq_true, if_false]
  refine ⟨fun h => by rw [h], fun rec h => ?_⟩
  rw [h]
  refine ⟨fun hlt => ⟨?_, ceilDiv1000_eq_ceil _⟩, fun hge => ?_⟩
  · simp [hlt]
  · simp [Nat.not_lt.mpr hge]

/-- A concrete store for the witnesses: one record for `1.2.3.4`. -/
def kvWitness : KVStore :=
  ⟨fun k => if k = "ratelimit:1.2.3.4" then some ⟨3, 5000⟩ else none,
   false, false, false⟩

/-- A concrete environment for the witnesses. -/
def envWitness : Env := ⟨some kvWitness, "hunter2", "owner/repo", "tok"⟩

/-- Witness for C2 at a concrete store: the identity `1.2.3.4` has a record
`{attempts := 3, resetAt := 5000}` and is checked at `now = 1000`. -/
theorem checkRateLimit_cases_witness :
    (envWitness.kv = some kvWitness ∧ kvWitness.getFails = false) ∧
    ((kvWitness.data (rateLimitKey "1.2.3.4") = none →
       checkRateLimit envWitness "1.2.3.4" 1000 = ⟨false, none⟩) ∧
     (∀ rec, kvWitness.data (rateLimitKey "1.2.3.4") = some rec →
       (1000 < rec.resetAt →
         checkRateLimit envWitness "1.2.3.4" 1000 =
           ⟨true, some (ceilDiv1000 (rec.resetAt - 1000))⟩ ∧
         ceilDiv1000 (rec.resetAt - 1000) =
           ⌈((rec.resetAt - 1000 : ℕ) : ℚ) / 1000⌉₊) ∧
       (rec.resetAt ≤ 1000 →
         checkRateLimit envWitness "1.2.3.4" 1000 = ⟨false, none⟩))) :=
  ⟨⟨rfl, rfl⟩, checkRateLimit_cases envWitness kvWitness "1.2.3.4" 1000 rfl rfl⟩

/-- C3: a failure update with a working store write records
`attempts = currentAttempts + 1` and `resetAt = now + BLOCK_DURATION` at the
identity's key, leaving every other key and the store flags unchanged — the
same record for every `currentAttempts`, whether or not
`currentAttempts + 1` has crossed `MAX_FAILED_ATTEMPTS`, so `resetAt` is
refreshed on every failure. -/
theorem updateRateLimit_spec (env : Env) (kv : KVStore) (clientIP : String)
    (now currentAttempts : Nat) (hkv : env.kv = some kv)
    (hput : kv.putFails = false) :
    ∃ kv2, (updateRateLimit env clientIP now currentAttempts).kv = some kv2 ∧
      kv2.data (rateLimitKey clientIP) =
        some ⟨currentAttempts + 1, now + blockDurationMs⟩ ∧
      (∀ k, k ≠ rateLimitKey clientIP → kv2.data k = kv.data k) ∧
      kv2.getFails = kv.getFails ∧ kv2.putFails = kv.putFails ∧
      kv2.deleteFails = kv.deleteFails := by
  unfold updateRateLimit
  rw [hkv]
  simp only [hput, Bool.false_eq_true, if_false]
  by_cases hc : MAX_FAILED_ATTEMPTS ≤ currentAttempts + 1
  · rw [if_pos hc]
    exact ⟨_, rfl, by simp [KVStore.put],
      fun k hk => by simp [KVStore.put, hk], rfl, by simp [KVStore.put, hput], rfl⟩
  · rw [if_neg hc]
    exact ⟨_, rfl, by simp [KVStore.put],
      fun k hk => by simp [KVStore.put, hk], rfl, by simp [KVStore.put, hput], rfl⟩

/-- Witness for C3: a fourth failure for `1.2.3.4` at `now = 6000`. -/
theorem updateRateLimit_spec_witness :
    (envWitness.kv = some kvWitness ∧ kvWitness.putFails = false) ∧
    (∃ kv2, (updateRateLimit envWitness "1.2.3.4" 6000 3).kv = some kv2 ∧
      kv2.data (rateLimitKey "1.2.3.4") = some ⟨3 + 1, 6000 + blockDurationMs⟩ ∧
      (∀ k, k ≠ rateLimitKey "1.2.3.4" → kv2.data k = kvWitness.data k) ∧
      kv2.getFails = kvWitness.getFails ∧ kv2.putFails = kvWitness.putFails ∧
      kv2.deleteFails = kvWitness.deleteFails) :=
  ⟨⟨rfl, rfl⟩, updateRateLimit_spec envWitness kvWitness "1.2.3.4" 6000 3 rfl rfl⟩

end Privylease

namespace Privylease

/-- Inversion: a blocked check means a working KV read found an unexpired
record, and the retry-after value is its ceiling-rounded remaining time. -/
theorem checkRateLimit_blocked_inv (env : Env) (clientIP : String) (now : Nat)
    (h : (checkRateLimit env clientIP now).isBlocked = true) :
    ∃ kv rec, env.kv = some kv ∧ kv.getFails = false ∧
      kv.data (rateLimitKey clientIP) = some rec ∧ now < rec.resetAt ∧
      checkRateLimit env clientIP now =
        ⟨true, some (ceilDiv1000 (rec.resetAt - now))⟩ := by
  cases henv : env.kv with
  | none =>
    rw [show checkRateLimit env clientIP now = ⟨false, none⟩ from by
      unfold checkRateLimit; rw [henv]] at h
    cases h
  | some kv =>
    by_cases hget : kv.getFails
    · rw [show checkRateLimit env clientIP now = ⟨false, none⟩ from by
        unfold checkRateLimit; rw [henv]; simp [hget]] at h
      cases h
    · cases hrec : kv.data (rateLimitKey clientIP) with
      | none =>
        rw [show checkRateLimit env clientIP now = ⟨false, none⟩ from by
          unfold checkRateLimit; rw [henv]; simp [hget, hrec]] at h
        cases h
      | some rec =>
        by_cases hlt : now < rec.resetAt
        · exact ⟨kv, rec, rfl, by simp [hget], hrec, hlt, by
            unfold checkRateLimit; rw [henv]; simp [hget, hrec, hlt]⟩
        · rw [show checkRateLimit env clientIP now = ⟨false, none⟩ from by
            unfold checkRateLimit; rw [henv]; simp [hget, hrec, hlt]] at h
          cases h

/-- Any response the handler produces when the check is not blocked has a
status other than 429 (it is 401, or a routed 200/404). -/
theorem fetch_not_blocked_status (request : Request) (env : Env) (now : Nat)
    (up : Upstream)
    (hc : (checkRateLimit env (getClientIP request) now).isBlocked = false) :
    (fetch request env now up).1.status ≠ 429 := by
  by_cases hm : request.method = "OPTIONS"
  · rw [fetch_options request env now up hm]
    show (200 : Nat) ≠ 429
    decide
  · by_cases hv : timingSafeEquals (request.xPassword.getD "") env.VIEWER_PASSWORD
    · rw [fetch_unblocked_valid request env now up hm hc hv]
      rcases routeRequest_status request up with h | h <;> simp [h]
    · rw [fetch_unblocked_invalid request env now up hm hc
        (Bool.not_eq_true _ ▸ hv)]
      show (401 : Nat) ≠ 429
      decide
  
/-- A `delete` error leaves the environment unchanged. -/
theorem resetRateLimit_eq_fail (env : Env) (kv : KVStore) (clientIP : String)
    (hkv : env.kv = some kv) (hdel : kv.deleteFails = true) :
    resetRateLimit env clientIP = env := by
  unfold resetRateLimit
  rw [hkv]
  simp [hdel]

/-- With a working delete, `resetRateLimit` removes the identity's key. -/
theorem resetRateLimit_eq (env : Env) (kv : KVStore) (clientIP : String)
    (hkv : env.kv = some kv) (hdel : kv.deleteFails = false) :
    resetRateLimit env clientIP =
      { env with kv := some (kv.del (rateLimitKey clientIP)) } := by
  unfold resetRateLimit
  rw [hkv]
  simp [hdel]

/-- A `put` error leaves the environment unchanged. -/
theorem updateRateLimit_eq_fail (env : Env) (kv : KVStore) (clientIP : String)
    (now currentAttempts : Nat) (hkv : env.kv = some kv)
    (hput : kv.putFails = true) :
    updateRateLimit env clientIP now currentAttempts = env := by
  unfold updateRateLimit
  rw [hkv]
  simp [hput]

/-- C6: with no durable store binding, or a store whose read path raises
(the error being caught), the rate limiter reports not-blocked and the
request is never answered 429 — it proceeds to credential comparison
regardless of any recorded failure count.  Moreover store write errors are
swallowed too: with failing `put`/`delete`, an un-blocked request still
completes with its normal status (401, or a routed 200/404), never an
error status surfaced from the store, and the store is left unchanged. -/
theorem fetch_fail_open (request : Request) (env : Env) (now : Nat)
    (up : Upstream)
    (herr : env.kv = none ∨ ∃ kv, env.kv = some kv ∧ kv.getFails = true) :
    (checkRateLimit env (getClientIP request) now = ⟨false, none⟩ ∧
     (fetch request env now up).1.status ≠ 429) ∧
    (∀ env2 kv2, env2.kv = some kv2 → kv2.putFails = true →
      kv2.deleteFails = true →
      (checkRateLimit env2 (getClientIP request) now).isBlocked = false →
      request.method ≠ "OPTIONS" →
      (fetch request env2 now up).2 = env2 ∧
      ((fetch request env2 now up).1.status = 401 ∨
       (fetch request env2 now up).1.status = 200 ∨
       (fetch request env2 now up).1.status = 404)) := by
  have hcheck : checkRateLimit env (getClientIP request) now = ⟨false, none⟩ := by
    unfold checkRateLimit
    rcases herr with h | ⟨kv, hkv, hget⟩
    · rw [h]
    · rw [hkv]; simp [hget]
  refine ⟨⟨hcheck, fetch_not_blocked_status request env now up (by rw [hcheck])⟩,
    ?_⟩
  intro env2 kv2 hkv2 hput2 hdel2 hnb hm
  by_cases hv : timingSafeEquals (request.xPassword.getD "")
      env2.VIEWER_PASSWORD
  · rw [fetch_unblocked_valid request env2 now up hm hnb hv]
    refine ⟨resetRateLimit_eq_fail env2 kv2 (getClientIP request) hkv2 hdel2,
      ?_⟩
    rcases routeRequest_status request up with h | h
    · right; left; exact h
    · right; right; exact h
  · rw [fetch_unblocked_invalid request env2 now up hm hnb
      (Bool.not_eq_true _ ▸ hv)]
    exact ⟨updateRateLimit_eq_fail env2 kv2 (getClientIP request) now
      (readCurrentAttempts env2 (getClientIP request)) hkv2 hput2,
      Or.inl rfl⟩

/-- A sample request whose password is wrong for `envWitness`. -/
def requestWitness : Request :=
  ⟨"GET", "/releases", some "wrong", some "1.2.3.4", none, none⟩

/-- Witness for C6: no KV binding configured, wrong password, yet never 429. -/
theorem fetch_fail_open_witness :
    ((⟨none, "hunter2", "owner/repo", "tok"⟩ : Env).kv = none ∨
      ∃ kv, (⟨none, "hunter2", "owner/repo", "tok"⟩ : Env).kv = some kv ∧
        kv.getFails = true) ∧
    ((checkRateLimit ⟨none, "hunter2", "owner/repo", "tok"⟩
        (getClientIP requestWitness) 1000 = ⟨false, none⟩ ∧
      (fetch requestWitness ⟨none, "hunter2", "owner/repo", "tok"⟩ 1000
          ⟨"[]", fun _ => ⟨302, some "u"⟩⟩).1.status ≠ 429) ∧
     (∀ env2 kv2, env2.kv = some kv2 → kv2.putFails = true →
       kv2.deleteFails = true →
       (checkRateLimit env2 (getClientIP requestWitness) 1000).isBlocked
         = false →
       requestWitness.method ≠ "OPTIONS" →
       (fetch requestWitness env2 1000
          ⟨"[]", fun _ => ⟨302, some "u"⟩⟩).2 = env2 ∧
       ((fetch requestWitness env2 1000
           ⟨"[]", fun _ => ⟨302, some "u"⟩⟩).1.status = 401 ∨
        (fetch requestWitness env2 1000
           ⟨"[]", fun _ => ⟨302, some "u"⟩⟩).1.status = 200 ∨
        (fetch requestWitness env2 1000
           ⟨"[]", fun _ => ⟨302, some "u"⟩⟩).1.status = 404))) :=
  ⟨Or.inl rfl,
   fetch_fail_open requestWitness ⟨none, "hunter2", "owner/repo", "tok"⟩ 1000
     ⟨"[]", fun _ => ⟨302, some "u"⟩⟩ (Or.inl rfl)⟩

end Privylease

namespace Privylease

/-- C7: whenever the handler answers 429, the `retryAfter` it carries (in
both the body and the `Retry-After` header) satisfies
`0 < retryAfter ≤ BLOCK_DURATION` in seconds (900), provided every record
in the store has `resetAt` at most `now + BLOCK_DURATION` — as holds for
records written by the failure path at or before the current time. -/
theorem fetch_retryAfter_bounds (request : Request) (env : Env) (now : Nat)
    (up : Upstream)
    (hbound : ∀ kv, env.kv = some kv → ∀ k r, kv.data k = some r →
      r.resetAt ≤ now + blockDurationMs)
    (h429 : (fetch request env now up).1.status = 429) :
    ∃ n, (fetch request env now up).1.body =
        Body.errorRetry "Too many failed attempts. Try again later." n ∧
      (fetch request env now up).1.headers =
        [("Content-Type", "application/json"),
         ("Access-Control-Allow-Origin", "*"), ("Retry-After", toString n)] ∧
      0 < n ∧ n ≤ BLOCK_DURATION_MINUTES * 60 := by
  by_cases hm : request.method = "OPTIONS"
  · rw [fetch_options request env now up hm] at h429
    simp at h429
  · by_cases hb : (checkRateLimit env (getClientIP request) now).isBlocked
    · obtain ⟨kv, rec, hkv, hget, hrec, hlt, hC⟩ :=
        checkRateLimit_blocked_inv env (getClientIP request) now hb
      rw [fetch_blocked request env now up _ hm hC]
      refine ⟨ceilDiv1000 (rec.resetAt - now), rfl, rfl, ?_, ?_⟩
      · unfold ceilDiv1000
        omega
      · have hR := hbound kv hkv _ _ hrec
        have hR2 : rec.resetAt ≤ now + 900000 := by
          simpa [blockDurationMs, BLOCK_DURATION_MINUTES] using hR
        unfold ceilDiv1000
        show (rec.resetAt - now + 999) / 1000 ≤ 900
        omega
    · exact absurd h429
        (fetch_not_blocked_status request env now up (Bool.not_eq_true _ ▸ hb))

/-- A store holding a just-expired-threshold record for the `unknown`
identity: `{attempts := 5, resetAt := 5000}`. -/
def kvBlocked : KVStore :=
  ⟨fun k => if k = "ratelimit:unknown" then some ⟨5, 5000⟩ else none,
   false, false, false⟩

/-- Environment with `kvBlocked` bound. -/
def envBlocked : Env := ⟨some kvBlocked, "hunter2", "owner/repo", "tok"⟩

/-- A request carrying the correct password but no origin headers, so its
identity is `unknown`. -/
def requestCorrectPw : Request :=
  ⟨"GET", "/releases", some "hunter2", none, none, none⟩

/-- The sample store `envBlocked` only holds records with
`resetAt ≤ 1000 + BLOCK_DURATION`. -/
theorem envBlocked_bound :
    ∀ kv, envBlocked.kv = some kv → ∀ k r, kv.data k = some r →
      r.resetAt ≤ 1000 + blockDurationMs := by
  intro kv hkv k r h
  injection hkv with h2
  subst h2
  by_cases hk : k = "ratelimit:unknown"
  · rw [show (kvBlocked.data k) = some ⟨5, 5000⟩ from by
      simp [kvBlocked, hk]] at h
    injection h with h3
    subst h3
    show (5000 : Nat) ≤ 1000 + blockDurationMs
    unfold blockDurationMs BLOCK_DURATION_MINUTES
    omega
  · rw [show (kvBlocked.data k) = none from by simp [kvBlocked, hk]] at h
    cases h

/-- Witness for C7: the `unknown` identity is blocked at `now = 1000`;
the handler answers 429 with `retryAfter = 4`. -/
theorem fetch_retryAfter_bounds_witness :
    ((∀ kv, envBlocked.kv = some kv → ∀ k r, kv.data k = some r →
        r.resetAt ≤ 1000 + blockDurationMs) ∧
     (fetch requestCorrectPw envBlocked 1000
        ⟨"[]", fun _ => ⟨302, some "u"⟩⟩).1.status = 429) ∧
    (∃ n, (fetch requestCorrectPw envBlocked 1000
          ⟨"[]", fun _ => ⟨302, some "u"⟩⟩).1.body =
        Body.errorRetry "Too many failed attempts. Try again later." n ∧
      (fetch requestCorrectPw envBlocked 1000
          ⟨"[]", fun _ => ⟨302, some "u"⟩⟩).1.headers =
        [("Content-Type", "application/json"),
         ("Access-Control-Allow-Origin", "*"), ("Retry-After", toString n)] ∧
      0 < n ∧ n ≤ BLOCK_DURATION_MINUTES * 60) :=
  ⟨⟨envBlocked_bound, by decide⟩,
   fetch_retryAfter_bounds requestCorrectPw envBlocked 1000
     ⟨"[]", fun _ => ⟨302, some "u"⟩⟩ envBlocked_bound (by decide)⟩

end Privylease

namespace Privylease

/-- C1: with a stored record at `attempts = MAX_FAILED_ATTEMPTS` whose
`resetAt` has not passed, a request carrying the correct password is still
answered 429 (neither 401 nor 200), and the store is left untouched: the
rate-limit check runs before the credential comparison, so the success
path (`resetRateLimit`) is never reached. -/
theorem fetch_blocked_despite_correct_password (request : Request) (env : Env)
    (now : Nat) (up : Upstream) (kv : KVStore) (rec : RateLimitRecord)
    (hm : request.method ≠ "OPTIONS")
    (hkv : env.kv = some kv) (hget : kv.getFails = false)
    (hrec : kv.data (rateLimitKey (getClientIP request)) = some rec)
    (hatt : rec.attempts = MAX_FAILED_ATTEMPTS)
    (hnow : now < rec.resetAt)
    (hpw : request.xPassword.getD "" = env.VIEWER_PASSWORD) :
    (fetch request env now up).1.status = 429 ∧
    (fetch request env now up).1.status ≠ 401 ∧
    (fetch request env now up).1.status ≠ 200 ∧
    (fetch request env now up).2 = env := by
  have hC : checkRateLimit env (getClientIP request) now =
      ⟨true, some (ceilDiv1000 (rec.resetAt - now))⟩ := by
    unfold checkRateLimit
    rw [hkv]
    simp [hget, hrec, hnow]
  rw [fetch_blocked request env now up _ hm hC]
  refine ⟨rfl, ?_, ?_, rfl⟩
  · show (429 : Nat) ≠ 401
    decide
  · show (429 : Nat) ≠ 200
    decide

/-- Witness for C1: `envBlocked` stores `{attempts := 5, resetAt := 5000}`
for the `unknown` identity; at `now = 1000` the correct-password request
`requestCorrectPw` is answered 429 and the store is unchanged. -/
theorem fetch_blocked_despite_correct_password_witness :
    (requestCorrectPw.method ≠ "OPTIONS" ∧
     envBlocked.kv = some kvBlocked ∧ kvBlocked.getFails = false ∧
     kvBlocked.data (rateLimitKey (getClientIP requestCorrectPw)) =
       some ⟨5, 5000⟩ ∧
     (5 : Nat) = MAX_FAILED_ATTEMPTS ∧ (1000 : Nat) < 5000 ∧
     requestCorrectPw.xPassword.getD "" = envBlocked.VIEWER_PASSWORD) ∧
    ((fetch requestCorrectPw envBlocked 1000
        ⟨"[]", fun _ => ⟨302, some "u"⟩⟩).1.status = 429 ∧
     (fetch requestCorrectPw envBlocked 1000
        ⟨"[]", fun _ => ⟨302, some "u"⟩⟩).1.status ≠ 401 ∧
     (fetch requestCorrectPw envBlocked 1000
        ⟨"[]", fun _ => ⟨302, some "u"⟩⟩).1.status ≠ 200 ∧
     (fetch requestCorrectPw envBlocked 1000
        ⟨"[]", fun _ => ⟨302, some "u"⟩⟩).2 = envBlocked) :=
  ⟨⟨by decide, rfl, rfl, by decide, rfl, by decide, by decide⟩,
   fetch_blocked_despite_correct_password requestCorrectPw envBlocked 1000
     ⟨"[]", fun _ => ⟨302, some "u"⟩⟩ kvBlocked ⟨5, 5000⟩
     (by decide) rfl rfl (by decide) rfl (by decide) (by decide)⟩

/-- C9: on an authenticated, un-blocked request whose path starts with
`/download-url/`, an upstream 302 yields a 200 response whose body carries
the upstream `Location` value with `Cache-Control: no-cache`, and any other
upstream status yields a 404 with body `{error: "Asset not found"}`. -/
theorem fetch_download_url (request : Request) (env : Env) (now : Nat)
    (up : Upstream)
    (hm : request.method ≠ "OPTIONS")
    (hnb : (checkRateLimit env (getClientIP request) now).isBlocked = false)
    (hpw : request.xPassword.getD "" = env.VIEWER_PASSWORD)
    (hpath : jsStartsWith request.pathname "/download-url/" = true) :
    ((up.asset ((request.pathname.splitOn "/download-url/").getD 1 "")).status
        = 302 →
      (fetch request env now up).1 =
        ⟨200,
         Body.downloadUrl
           (up.asset
             ((request.pathname.splitOn "/download-url/").getD 1 "")).location,
         [("Content-Type", "application/json"),
          ("Access-Control-Allow-Origin", "*"),
          ("Cache-Control", "no-cache")]⟩) ∧
    ((up.asset ((request.pathname.splitOn "/download-url/").getD 1 "")).status
        ≠ 302 →
      (fetch request env now up).1 =
        ⟨404, Body.errorMsg "Asset not found",
         [("Content-Type", "application/json"),
          ("Access-Control-Allow-Origin", "*")]⟩) := by
  have hv : timingSafeEquals (request.xPassword.getD "") env.VIEWER_PASSWORD
      = true := (timingSafeEquals_correct _ _).mpr hpw
  rw [fetch_unblocked_valid request env now up hm hnb hv]
  have hnrel : request.pathname ≠ "/releases" := by
    intro h
    rw [h] at hpath
    exact absurd hpath (by decide)
  unfold routeRequest
  rw [if_neg hnrel, if_pos hpath]
  constructor
  · intro h302; rw [if_pos h302]; rfl
  · intro h302; rw [if_neg h302]; rfl

/-- A download request for asset `123` with the correct password from
`1.2.3.4`. -/
def requestDownload : Request :=
  ⟨"GET", "/download-url/123", some "hunter2", some "1.2.3.4", none, none⟩

/-- An upstream that redirects every asset to a CDN URL. -/
def upstream302 : Upstream := ⟨"[]", fun _ => ⟨302, some "https://cdn.example/x"⟩⟩

/-- Witness for C9 at `now = 6000` (the stored record for `1.2.3.4` is
stale, so the check is not blocked) with a 302-answering upstream. -/
theorem fetch_download_url_witness :
    (requestDownload.method ≠ "OPTIONS" ∧
     (checkRateLimit envWitness (getClientIP requestDownload) 6000).isBlocked
       = false ∧
     requestDownload.xPassword.getD "" = envWitness.VIEWER_PASSWORD ∧
     jsStartsWith requestDownload.pathname "/download-url/" = true) ∧
    (((upstream302.asset
         ((requestDownload.pathname.splitOn "/download-url/").getD 1 "")).status
        = 302 →
      (fetch requestDownload envWitness 6000 upstream302).1 =
        ⟨200,
         Body.downloadUrl
           (upstream302.asset
             ((requestDownload.pathname.splitOn "/download-url/").getD 1
               "")).location,
         [("Content-Type", "application/json"),
          ("Access-Control-Allow-Origin", "*"),
          ("Cache-Control", "no-cache")]⟩) ∧
     ((upstream302.asset
         ((requestDownload.pathname.splitOn "/download-url/").getD 1 "")).status
        ≠ 302 →
      (fetch requestDownload envWitness 6000 upstream302).1 =
        ⟨404, Body.errorMsg "Asset not found",
         [("Content-Type", "application/json"),
          ("Access-Control-Allow-Origin", "*")]⟩)) :=
  ⟨⟨by decide, by decide, by decide, by decide⟩,
   fetch_download_url requestDownload envWitness 6000 upstream302
     (by decide) (by decide) (by decide) (by decide)⟩

/-- C10: with an empty configured secret, a non-OPTIONS request carrying no
X-Password header and not currently blocked authenticates: the missing
header is coerced to the empty string, the comparator accepts two empty
strings, and the handler proceeds to routing (and to the success-path
rate-limit reset) instead of answering 401. -/
theorem fetch_empty_secret_authenticates (request : Request) (env : Env)
    (now : Nat) (up : Upstream)
    (hm : request.method ≠ "OPTIONS")
    (hsecret : env.VIEWER_PASSWORD = "")
    (hhdr : request.xPassword = none)
    (hnb : (checkRateLimit env (getClientIP request) now).isBlocked = false) :
    timingSafeEquals (request.xPassword.getD "") env.VIEWER_PASSWORD = true ∧
    fetch request env now up =
      (routeRequest request up, resetRateLimit env (getClientIP request)) ∧
    (fetch request env now up).1.status ≠ 401 := by
  have hv : timingSafeEquals (request.xPassword.getD "") env.VIEWER_PASSWORD
      = true := by
    rw [hhdr, hsecret]
    decide
  refine ⟨hv, fetch_unblocked_valid request env now up hm hnb hv, ?_⟩
  rw [fetch_unblocked_valid request env now up hm hnb hv]
  rcases routeRequest_status request up with h | h <;> simp [h]

/-- A root request with no password header. -/
def requestNoPw : Request := ⟨"GET", "/", none, none, none, none⟩

/-- Witness for C10: empty secret, no X-Password header, no KV binding. -/
theorem fetch_empty_secret_authenticates_witness :
    (requestNoPw.method ≠ "OPTIONS" ∧
     (⟨none, "", "owner/repo", "tok"⟩ : Env).VIEWER_PASSWORD = "" ∧
     requestNoPw.xPassword = none ∧
     (checkRateLimit ⟨none, "", "owner/repo", "tok"⟩
        (getClientIP requestNoPw) 0).isBlocked = false) ∧
    (timingSafeEquals (requestNoPw.xPassword.getD "")
        (⟨none, "", "owner/repo", "tok"⟩ : Env).VIEWER_PASSWORD = true ∧
     fetch requestNoPw ⟨none, "", "owner/repo", "tok"⟩ 0 upstream302 =
       (routeRequest requestNoPw upstream302,
        resetRateLimit ⟨none, "", "owner/repo", "tok"⟩
          (getClientIP requestNoPw)) ∧
     (fetch requestNoPw ⟨none, "", "owner/repo", "tok"⟩ 0
        upstream302).1.status ≠ 401) :=
  ⟨⟨by decide, rfl, rfl, by decide⟩,
   fetch_empty_secret_authenticates requestNoPw
     ⟨none, "", "owner/repo", "tok"⟩ 0 upstream302
     (by decide) rfl rfl (by decide)⟩

end Privylease

namespace Privylease

/-- With a working store write, `updateRateLimit` is one `put` of
`{attempts := currentAttempts + 1, resetAt := now + BLOCK_DURATION}` — both
source branches write this same record. -/
theorem updateRateLimit_eq (env : Env) (kv : KVStore) (clientIP : String)
    (now currentAttempts : Nat) (hkv : env.kv = some kv)
    (hput : kv.putFails = false) :
    updateRateLimit env clientIP now currentAttempts =
      { env with kv := some (kv.put (rateLimitKey clientIP)
          ⟨currentAttempts + 1, now + blockDurationMs⟩) } := by
  unfold updateRateLimit
  rw [hkv]
  simp only [hput, Bool.false_eq_true, if_false]
  by_cases hc : MAX_FAILED_ATTEMPTS ≤ currentAttempts + 1
  · rw [if_pos hc]
  · rw [if_neg hc]

/-- One handler step, seen from an arbitrary record key: with a working
store read and write, the key's record is either deleted (success path) or
survives with a non-decreasing `attempts` count; and if it was rewritten,
it became exactly `{attempts + 1, now + BLOCK_DURATION}`. -/
theorem fetch_step_record (request : Request) (env : Env) (now : Nat)
    (up : Upstream) (kv : KVStore) (key : String)
    (hkv : env.kv = some kv) (hget : kv.getFails = false)
    (hput : kv.putFails = false) :
    ∃ kv2, (fetch request env now up).2.kv = some kv2 ∧
      kv2.getFails = false ∧ kv2.putFails = false ∧
      ∀ r, kv.data key = some r →
        kv2.data key = none ∨
        ∃ r2, kv2.data key = some r2 ∧ r.attempts ≤ r2.attempts ∧
          (r2 ≠ r → r2.attempts = r.attempts + 1 ∧
            r2.resetAt = now + blockDurationMs) := by
  have unchanged : ∀ r : RateLimitRecord, kv.data key = some r →
      kv.data key = none ∨
      ∃ r2, kv.data key = some r2 ∧ r.attempts ≤ r2.attempts ∧
        (r2 ≠ r → r2.attempts = r.attempts + 1 ∧
          r2.resetAt = now + blockDurationMs) :=
    fun r hr => Or.inr ⟨r, hr, le_refl _, fun hne => absurd rfl hne⟩
  by_cases hm : request.method = "OPTIONS"
  · rw [fetch_options request env now up hm]
    exact ⟨kv, hkv, hget, hput, unchanged⟩
  · by_cases hb : (checkRateLimit env (getClientIP request) now).isBlocked
    · obtain ⟨kv', rec, hkv', hget', hrec, hlt, hC⟩ :=
        checkRateLimit_blocked_inv env (getClientIP request) now hb
      rw [fetch_blocked request env now up _ hm hC]
      exact ⟨kv, hkv, hget, hput, unchanged⟩
    · have hb2 : (checkRateLimit env (getClientIP request) now).isBlocked
          = false := Bool.not_eq_true _ ▸ hb
      by_cases hv : timingSafeEquals (request.xPassword.getD "")
          env.VIEWER_PASSWORD
      · rw [fetch_unblocked_valid request env now up hm hb2 hv]
        by_cases hdel : kv.deleteFails
        · rw [resetRateLimit_eq_fail env kv (getClientIP request) hkv hdel]
          exact ⟨kv, hkv, hget, hput, unchanged⟩
        · rw [resetRateLimit_eq env kv (getClientIP request) hkv
            (Bool.not_eq_true _ ▸ hdel)]
          refine ⟨kv.del (rateLimitKey (getClientIP request)), rfl, hget, hput,
            fun r hr => ?_⟩
          by_cases hk : key = rateLimitKey (getClientIP request)
          · left
            simp [KVStore.del, hk]
          · right
            exact ⟨r, by simp [KVStore.del, hk, hr], le_refl _,
              fun hne => absurd rfl hne⟩
      · have hv2 : timingSafeEquals (request.xPassword.getD "")
            env.VIEWER_PASSWORD = false := Bool.not_eq_true _ ▸ hv
        rw [fetch_unblocked_invalid request env now up hm hb2 hv2]
        rw [updateRateLimit_eq env kv (getClientIP request) now
          (readCurrentAttempts env (getClientIP request)) hkv hput]
        refine ⟨kv.put (rateLimitKey (getClientIP request))
          ⟨readCurrentAttempts env (getClientIP request) + 1,
           now + blockDurationMs⟩, rfl, hget, hput, fun r hr => ?_⟩
        by_cases hk : key = rateLimitKey (getClientIP request)
        · have hcur : readCurrentAttempts env (getClientIP request)
              = r.attempts := by
            unfold readCurrentAttempts
            rw [hkv]
            simp only [hget, Bool.false_eq_true, if_false]
            rw [← hk, hr]
          right
          refine ⟨⟨r.attempts + 1, now + blockDurationMs⟩,
            by simp [KVStore.put, hk, hcur], by simp, fun hne => ⟨rfl, rfl⟩⟩
        · right
          exact ⟨r, by simp [KVStore.put, hk, hr], le_refl _,
            fun hne => absurd rfl hne⟩

/-- Sequential execution of requests through the handler, threading the
store state; each step carries its own `Date.now()`. -/
def runTrace (steps : List (Request × Nat)) (env : Env) (up : Upstream) : Env :=
  match steps with
  | [] => env
  | (request, t) :: rest => runTrace rest (fetch request env t up).2 up

/-- Along any trace during which the key's record continuously exists (it
is never deleted by a success nor vanishes), `attempts` never decreases. -/
theorem runTrace_attempts_mono (up : Upstream) (key : String)
    (steps : List (Request × Nat)) :
    ∀ env kv r, env.kv = some kv → kv.getFails = false →
      kv.putFails = false → kv.data key = some r →
      (∀ n, n ≤ steps.length → ∃ kv2 r2,
        (runTrace (List.take n steps) env up).kv = some kv2 ∧
        kv2.data key = some r2) →
      ∃ kv2 r2, (runTrace steps env up).kv = some kv2 ∧
        kv2.data key = some r2 ∧ r.attempts ≤ r2.attempts := by
  induction steps with
  | nil =>
    intro env kv r hkv hget hput hr _
    exact ⟨kv, r, hkv, hr, le_refl _⟩
  | cons step rest ih =>
    intro env kv r hkv hget hput hr halive
    obtain ⟨request, t⟩ := step
    obtain ⟨kvm, rm, hkvm, hrm⟩ := halive 1 (by simp)
    rw [show List.take 1 ((request, t) :: rest) = [(request, t)] from by simp,
      show runTrace [(request, t)] env up = (fetch request env t up).2 from rfl]
      at hkvm
    obtain ⟨kv2, hkv2, hget2, hput2, hstep⟩ :=
      fetch_step_record request env t up kv key hkv hget hput
    have hkveq : kv2 = kvm := by
      rw [hkv2] at hkvm
      injection hkvm
    subst hkveq
    rcases hstep r hr with hnone | ⟨r2, hr2, hle, _⟩
    · rw [hnone] at hrm
      cases hrm
    · have hreq : r2 = rm := by
        rw [hr2] at hrm
        injection hrm
      subst hreq
      have halive2 : ∀ n, n ≤ rest.length → ∃ kv3 r3,
          (runTrace (List.take n rest) (fetch request env t up).2 up).kv
            = some kv3 ∧ kv3.data key = some r3 := by
        intro n hn
        have := halive (n + 1) (by simpa using hn)
        rwa [show List.take (n + 1) ((request, t) :: rest)
            = (request, t) :: List.take n rest from by simp,
          show runTrace ((request, t) :: List.take n rest) env up
            = runTrace (List.take n rest) (fetch request env t up).2 up
            from rfl] at this
      obtain ⟨kv3, r3, hkv3, hr3, hle3⟩ :=
        ih (fetch request env t up).2 kv2 r2 hkv2 hget2 hput2 hr2 halive2
      exact ⟨kv3, r3, hkv3, hr3, le_trans hle hle3⟩

end Privylease

namespace Privylease

/-- C8: from creation until a success deletes it (or it vanishes), a
record's `attempts` is monotonically non-decreasing along any trace of
requests during which it continuously exists; and whenever a single step
rewrites the record at a key, the new value has `attempts` incremented by
one and `resetAt` equal to that step's own time plus the block duration —
never partially computed from stale values. -/
theorem rateLimitRecord_invariant (steps : List (Request × Nat)) (env : Env)
    (up : Upstream) (kv : KVStore) (key : String) (r : RateLimitRecord)
    (hkv : env.kv = some kv) (hget : kv.getFails = false)
    (hput : kv.putFails = false) (hr : kv.data key = some r)
    (halive : ∀ n, n ≤ steps.length → ∃ kv2 r2,
      (runTrace (List.take n steps) env up).kv = some kv2 ∧
      kv2.data key = some r2) :
    (∃ kv2 r2, (runTrace steps env up).kv = some kv2 ∧
      kv2.data key = some r2 ∧ r.attempts ≤ r2.attempts) ∧
    (∀ request env2 t kv2 r2 kv3 r3,
      env2.kv = some kv2 → kv2.getFails = false → kv2.putFails = false →
      kv2.data key = some r2 →
      (fetch request env2 t up).2.kv = some kv3 →
      kv3.data key = some r3 → r3 ≠ r2 →
      r3.attempts = r2.attempts + 1 ∧ r3.resetAt = t + blockDurationMs) := by
  refine ⟨runTrace_attempts_mono up key steps env kv r hkv hget hput hr halive,
    ?_⟩
  intro request env2 t kv2 r2 kv3 r3 hkv2 hget2 hput2 hr2 hkv3 hr3 hne
  obtain ⟨kv4, hkv4, _, _, hstep⟩ :=
    fetch_step_record request env2 t up kv2 key hkv2 hget2 hput2
  have h4 : kv4 = kv3 := by
    rw [hkv4] at hkv3
    injection hkv3
  subst h4
  rcases hstep r2 hr2 with hnone | ⟨r4, hr4, _, himp⟩
  · rw [hnone] at hr3
    cases hr3
  · have h5 : r4 = r3 := by
      rw [hr4] at hr3
      injection hr3
    subst h5
    exact himp hne

/-- A wrong-password root request with no origin headers. -/
def requestWrongPw : Request := ⟨"GET", "/", some "bad", none, none, none⟩

/-- The record for `unknown` exists at both states of the one-step witness
trace: initially `{5, 5000}`, and `{6, 6000 + BLOCK_DURATION}` after the
wrong-password request at `t = 6000` refreshes it. -/
theorem witnessTrace_alive :
    ∀ n, n ≤ ([(requestWrongPw, 6000)] : List (Request × Nat)).length →
      ∃ kv2 r2,
        (runTrace (List.take n [(requestWrongPw, 6000)]) envBlocked
          upstream302).kv = some kv2 ∧
        kv2.data "ratelimit:unknown" = some r2 := by
  intro n hn
  simp only [List.length_cons, List.length_nil] at hn
  interval_cases n
  · exact ⟨kvBlocked, ⟨5, 5000⟩, rfl, by decide⟩
  · exact ⟨kvBlocked.put (rateLimitKey "unknown") ⟨6, 6000 + blockDurationMs⟩,
      ⟨6, 6000 + blockDurationMs⟩, rfl, by decide⟩

/-- Witness for C8: the one-step trace of a wrong-password request at
`t = 6000` against the store holding `{attempts := 5, resetAt := 5000}`
for the `unknown` identity. -/
theorem rateLimitRecord_invariant_witness :
    (envBlocked.kv = some kvBlocked ∧ kvBlocked.getFails = false ∧
     kvBlocked.putFails = false ∧
     kvBlocked.data "ratelimit:unknown" = some ⟨5, 5000⟩ ∧
     (∀ n, n ≤ ([(requestWrongPw, 6000)] : List (Request × Nat)).length →
       ∃ kv2 r2,
         (runTrace (List.take n [(requestWrongPw, 6000)]) envBlocked
           upstream302).kv = some kv2 ∧
         kv2.data "ratelimit:unknown" = some r2)) ∧
    ((∃ kv2 r2,
        (runTrace [(requestWrongPw, 6000)] envBlocked upstream302).kv
          = some kv2 ∧
        kv2.data "ratelimit:unknown" = some r2 ∧
        (⟨5, 5000⟩ : RateLimitRecord).attempts ≤ r2.attempts) ∧
     (∀ request env2 t kv2 r2 kv3 r3,
       env2.kv = some kv2 → kv2.getFails = false → kv2.putFails = false →
       kv2.data "ratelimit:unknown" = some r2 →
       (fetch request env2 t upstream302).2.kv = some kv3 →
       kv3.data "ratelimit:unknown" = some r3 → r3 ≠ r2 →
       r3.attempts = r2.attempts + 1 ∧ r3.resetAt = t + blockDurationMs)) :=
  ⟨⟨rfl, rfl, rfl, by decide, witnessTrace_alive⟩,
   rateLimitRecord_invariant [(requestWrongPw, 6000)] envBlocked upstream302
     kvBlocked "ratelimit:unknown" ⟨5, 5000⟩ rfl rfl rfl (by decide)
     witnessTrace_alive⟩

end Privylease
